import Mathlib

/-!
Verification of the climate-career agents repository: a shallow embedding of
the knowledge-resolution cascade (`src/tools.py`, `search_knowledge_base`,
`get_from_cache`, `set_in_cache`) and of the routing state machine
(`src/node.py` node functions driven by the graph wired in `src/graph.py`),
together with theorems settling the specification claims about them.

External collaborators (Supabase vector store, the `match_documents` RPC,
the direct PostgreSQL connection, the Supabase table API, Redis, and the
LLM agent executor) are modelled as oracle functions carried in an
environment record; each oracle returns `Except` to represent a call that
either returns a value or raises, mirroring the `try/except` structure of
the source.
-/

namespace Climate

/-! ## Python string helpers -/

/-- Python `str.lower()` (ASCII behaviour, which is all the source uses). -/
def pyLower (s : String) : String := String.mk (s.data.map Char.toLower)

/-- Whitespace splitter: accumulates the current token (reversed) and
drops empty tokens, like Python `str.split()` with no argument. -/
def splitWs : List Char → List Char → List String
  | [], acc => if acc.isEmpty then [] else [String.mk acc.reverse]
  | c :: cs, acc =>
    if c.isWhitespace then
      if acc.isEmpty then splitWs cs []
      else String.mk acc.reverse :: splitWs cs []
    else splitWs cs (c :: acc)

/-- Python `str.split()` with no argument: split on whitespace runs,
dropping empty tokens. -/
def pySplit (s : String) : List String := splitWs s.data []

/-- Python `str.capitalize()`: first character upper-cased, the rest
lower-cased. -/
def pyCapitalize (s : String) : String :=
  match s.data with
  | [] => ""
  | c :: cs => String.mk (c.toUpper :: cs.map Char.toLower)

/-- `needle` is a prefix of `hay` (character lists). -/
def listPre : List Char → List Char → Bool
  | [], _ => true
  | _ :: _, [] => false
  | a :: as, b :: bs => a == b && listPre as bs

/-- `needle` occurs as a contiguous substring of `hay` (character lists). -/
def listSub (needle : List Char) : List Char → Bool
  | [] => listPre needle []
  | b :: bs => listPre needle (b :: bs) || listSub needle bs

/-- Python `needle in hay` on strings: substring containment. -/
def strContains (hay needle : String) : Bool := listSub needle.data hay.data

/-- Python `any(kw in hay for kw in kws)`. -/
def containsAnyKw (hay : String) (kws : List String) : Bool :=
  kws.any (fun kw => strContains hay kw)

/-! ## Data model of the resolution cascade (src/tools.py) -/

/-- A metadata map (Python dict of string keys; values simplified to
strings, which is all the control flow of the cascade ever inspects). -/
abbrev Metadata := List (String × String)

/-- A document returned by the vector store (`doc` in
`similarity_search_with_score`). -/
structure VDoc where
  page_content : String
  metadata : Metadata
deriving DecidableEq, Repr

/-- A raw backend item (RPC row, direct-DB row, or table-API row): a dict
whose fields may be absent, read with `item.get(key, default)`. -/
structure Item where
  id : Option String := none
  content : Option String := none
  title : Option String := none
  summary : Option String := none
  metadata : Option Metadata := none
  similarity : Option ℚ := none
deriving DecidableEq, Repr

/-- One result dict assembled by `search_knowledge_base`. -/
structure KBRecord where
  id : String
  content : String
  title : String
  summary : String
  metadata : Metadata
  similarity : ℚ
deriving DecidableEq, Repr

/-- An element of the list returned by `search_knowledge_base`: either a
result record or the synthetic `{"error": msg}` dict. -/
inductive KBEntry where
  | record (r : KBRecord)
  | err (msg : String)
deriving DecidableEq, Repr

/-- Python `d.get(k, default)` on a metadata dict. -/
def getMetaD (m : Metadata) (k dflt : String) : String :=
  (List.lookup k m).getD dflt

/-- Lines 336-344 of src/tools.py: a vector-store `(doc, score)` pair
becomes a result dict. -/
def recordOfVDoc (d : VDoc) (score : ℚ) : KBRecord :=
  { id := getMetaD d.metadata "id" "unknown"
    content := d.page_content
    title := getMetaD d.metadata "title" "Untitled"
    summary := getMetaD d.metadata "summary" ""
    metadata := d.metadata
    similarity := score }

/-- Lines 363-371 of src/tools.py: an RPC `match_documents` item becomes a
result dict, with its own similarity (default 0). -/
def recordOfRpcItem (it : Item) : KBRecord :=
  { id := it.id.getD "unknown"
    content := it.content.getD ""
    title := it.title.getD "Untitled"
    summary := it.summary.getD ""
    metadata := it.metadata.getD []
    similarity := it.similarity.getD 0 }

/-- Lines 400-408 of src/tools.py: a direct-DB row becomes a result dict
with the fixed placeholder similarity 0.75. -/
def recordOfDbItem (it : Item) : KBRecord :=
  { id := it.id.getD "unknown"
    content := it.content.getD ""
    title := it.title.getD "Untitled"
    summary := it.summary.getD ""
    metadata := it.metadata.getD []
    similarity := (0.75 : ℚ) }

/-- Lines 422-430 of src/tools.py: a table-API keyword-match item becomes a
result dict with the fixed placeholder similarity 0.8. -/
def recordOfApiItem (it : Item) : KBRecord :=
  { id := it.id.getD "unknown"
    content := it.content.getD ""
    title := it.title.getD "Untitled"
    summary := it.summary.getD ""
    metadata := it.metadata.getD []
    similarity := (0.8 : ℚ) }

/-- The Redis cache contents: key, value, and the TTL (seconds) it was set
with.  Most recent write first; `List.lookup` finds the latest writer.
Wall-clock expiry is not modelled. -/
abbrev Cache := List (String × (List KBEntry × Nat))

/-- Environment of `search_knowledge_base`: module-level availability flags
and one oracle per external backend call.  `Except.error` models the call
raising. -/
structure KBEnv where
  /-- `supabase_available` module flag. -/
  supabaseAvailable : Bool
  /-- whether the `user` env var (`DB_USER`) is set and truthy. -/
  dbUserSet : Bool
  /-- `redis_available` module flag. -/
  redisAvailable : Bool
  /-- the Redis GET call inside `get_from_cache` does not raise. -/
  getOk : Bool
  /-- the Redis SETEX call inside `set_in_cache` succeeds. -/
  setOk : Bool
  /-- `vector_store` is not None. -/
  hasVectorStore : Bool
  /-- `vector_store.similarity_search_with_score(query, k=5)`. -/
  vectorSearch : String → Except String (List (VDoc × ℚ))
  /-- `supabase_admin.rpc('match_documents', ...).execute().data`. -/
  rpcMatchDocuments : String → Except String (List Item)
  /-- `direct_db_query(sql)` for the keyword conditions; it catches its own
  exceptions and returns `[]` on failure, so it never raises. -/
  directDb : List String → List Item
  /-- `supabase_admin.table("knowledge_chunks")...ilike(content, kw)...`
  for the main keyword. -/
  apiKeyword : String → Except String (List Item)

/-- Line 321 of src/tools.py: `cache_key = f"kb_search:{query}"`. -/
def kbCacheKey (q : String) : String := "kb_search:" ++ q

/-- Latest cached value under a key, ignoring TTL. -/
def cacheLookup (c : Cache) (k : String) : Option (List KBEntry) :=
  (List.lookup k c).map Prod.fst

/-- `get_from_cache` (src/tools.py lines 472-481): None when Redis is
unavailable or the read raises, otherwise the stored value. -/
def getFromCache (env : KBEnv) (c : Cache) (k : String) : Option (List KBEntry) :=
  if env.redisAvailable && env.getOk then cacheLookup c k else none

/-- `set_in_cache` (src/tools.py lines 483-491): SETEX with a 3600-second
default TTL; a raising or unavailable Redis leaves the cache unchanged. -/
def setInCache (env : KBEnv) (c : Cache) (k : String) (v : List KBEntry) : Cache :=
  if env.redisAvailable && env.setOk then (k, (v, 3600)) :: c else c

/-- The strategy block of `search_knowledge_base` (src/tools.py lines
330-432), translated statement by statement: vector search; if it raised
or produced nothing, the `match_documents` RPC; only inside the RPC's
`except` handler, the direct-DB keyword fallback and then, if that
produced nothing, the table-API keyword fallback. -/
def kbStrategyResults (env : KBEnv) (q : String) : List KBRecord :=
  let results2 : List KBRecord :=
    if env.hasVectorStore then
      match env.vectorSearch q with
      | .ok docs => docs.map (fun p => recordOfVDoc p.1 p.2)
      | .error _ => []
    else []
  if results2.isEmpty then
    match env.rpcMatchDocuments q with
    | .ok items => items.map recordOfRpcItem
    | .error _ =>
      let keywords := pySplit (pyLower q)
      let results4 : List KBRecord :=
        if !keywords.isEmpty then
          let conds := (keywords.take 3).filter (fun kw => kw.length > 2)
          if !conds.isEmpty then
            match env.directDb conds with
            | [] => []
            | r :: rs => (r :: rs).map recordOfDbItem
          else []
        else []
      if results4.isEmpty then
        if !keywords.isEmpty then
          match env.apiKeyword (keywords.headD "") with
          | .ok items => items.map recordOfApiItem
          | .error _ => []
        else []
      else results4
  else results2

/-- `search_knowledge_base` (src/tools.py lines 313-441): availability
guard, truthiness-tested cache probe, strategy block, conditional
write-back.  Returns the result list and the cache after the call.  Every
backend exception is represented as data, so the function is total: the
embedded `resolve` cannot raise. -/
def searchKnowledgeBase (env : KBEnv) (cache : Cache) (q : String) :
    List KBEntry × Cache :=
  if !env.supabaseAvailable && !env.dbUserSet then
    ([KBEntry.err "Knowledge base is not available"], cache)
  else
    let key := kbCacheKey q
    let hit : Option (List KBEntry) :=
      match (if env.redisAvailable then getFromCache env cache key else none) with
      | some v => if v.isEmpty then none else some v
      | none => none
    match hit with
    | some v => (v, cache)
    | none =>
      let results := kbStrategyResults env q
      let entries := results.map KBEntry.record
      let cacheOut :=
        if env.redisAvailable && !results.isEmpty then
          setInCache env cache key entries
        else cache
      (entries, cacheOut)

/-! ## Spec-side view of the cascade

The following definitions restate the resolution cascade the way the
(amended) specification describes it: an ordered list of strategies,
short-circuiting on the first one that produces at least one record, a
raising strategy caught and skipped with no partial merge — with the
documented asymmetry that the two keyword fallbacks live inside the RPC
strategy's exception handler, so they are attempted only when the RPC
raises, not when it succeeds with zero records. -/

/-- Spec view of strategy 2 (similarity search): its records, or an error
when the backend raised; not attempted when no vector store exists. -/
def strat2 (env : KBEnv) (q : String) : Except String (List KBRecord) :=
  if env.hasVectorStore then
    match env.vectorSearch q with
    | .ok docs => .ok (docs.map (fun p => recordOfVDoc p.1 p.2))
    | .error e => .error e
  else .ok []

/-- Spec view of strategy 3 (structured RPC). -/
def strat3 (env : KBEnv) (q : String) : Except String (List KBRecord) :=
  match env.rpcMatchDocuments q with
  | .ok items => .ok (items.map recordOfRpcItem)
  | .error e => .error e

/-- Spec view of strategy 4 (direct-connection keyword fallback): keyword
predicate from the first 3 query tokens of length > 2; not attempted when
no such token exists; `direct_db_query` never raises. -/
def strat4 (env : KBEnv) (q : String) : List KBRecord :=
  let keywords := pySplit (pyLower q)
  if keywords.isEmpty then []
  else
    let conds := (keywords.take 3).filter (fun kw => kw.length > 2)
    if conds.isEmpty then []
    else (env.directDb conds).map recordOfDbItem

/-- Spec view of strategy 5 (API keyword fallback on the first keyword);
not attempted when the query has no tokens. -/
def strat5 (env : KBEnv) (q : String) : Except String (List KBRecord) :=
  match pySplit (pyLower q) with
  | [] => .ok []
  | k :: _ =>
    match env.apiKeyword k with
    | .ok items => .ok (items.map recordOfApiItem)
    | .error e => .error e

/-- The cascade as the amended specification words it: strategy 2 wins if
it produces at least one record; otherwise strategy 3's successful answer
(even an empty one) is final; only when strategy 3 raises are strategy 4
and then strategy 5 attempted, in that order, with strategy 5 reached only
when strategy 4 yields zero records. -/
def cascadeSpec (env : KBEnv) (q : String) : List KBRecord :=
  match strat2 env q with
  | .ok (r :: rs) => r :: rs
  | _ =>
    match strat3 env q with
    | .ok items => items
    | .error _ =>
      match strat4 env q with
      | r :: rs => r :: rs
      | [] =>
        match strat5 env q with
        | .ok items => items
        | .error _ => []

lemma kbStrategyResults_eq_cascadeSpec (env : KBEnv) (q : String) :
    kbStrategyResults env q = cascadeSpec env q := by
  simp only [kbStrategyResults, cascadeSpec, strat2, strat3, strat4, strat5]
  cases hvs : env.hasVectorStore
  case true =>
    cases hv : env.vectorSearch q
    case ok docs =>
      cases docs
      case nil =>
        simp only [List.map_nil, List.isEmpty_nil, if_true, Bool.true_eq_false]
        cases hrpc : env.rpcMatchDocuments q
        case ok items => simp
        case error e =>
          simp only
          cases hkw : pySplit (pyLower q)
          case nil => simp
          case cons k ks =>
            simp only [List.isEmpty_cons, Bool.not_false, if_true, List.headD_cons]
            cases hconds : ((k :: ks).take 3).filter (fun kw => kw.length > 2)
            case nil =>
              simp only [List.isEmpty_nil, Bool.not_true, if_false, Bool.false_eq_true,
                List.isEmpty_eq_true, if_true]
              cases hapi : env.apiKeyword k <;> simp
            case cons c cs =>
              simp only [List.isEmpty_cons, Bool.not_false, if_true]
              cases hdb : env.directDb (c :: cs)
              case nil =>
                simp only [List.isEmpty_nil, if_true]
                cases hapi : env.apiKeyword k <;> simp
              case cons r rs => simp
      case cons d ds =>
        simp
    case error e =>
      simp only [List.isEmpty_nil, if_true, Bool.true_eq_false]
      cases hrpc : env.rpcMatchDocuments q
      case ok items => simp
      case error e2 =>
        simp only
        cases hkw : pySplit (pyLower q)
        case nil => simp
        case cons k ks =>
          simp only [List.isEmpty_cons, Bool.not_false, if_true, List.headD_cons]
          cases hconds : ((k :: ks).take 3).filter (fun kw => kw.length > 2)
          case nil =>
            simp only [List.isEmpty_nil, Bool.not_true, if_false, Bool.false_eq_true,
              List.isEmpty_eq_true, if_true]
            cases hapi : env.apiKeyword k <;> simp
          case cons c cs =>
            simp only [List.isEmpty_cons, Bool.not_false, if_true]
            cases hdb : env.directDb (c :: cs)
            case nil =>
              simp only [List.isEmpty_nil, if_true]
              cases hapi : env.apiKeyword k <;> simp
            case cons r rs => simp
  case false =>
    simp only [Bool.false_eq_true, if_false, List.isEmpty_nil, if_true]
    cases hrpc : env.rpcMatchDocuments q
    case ok items => simp
    case error e =>
      simp only
      cases hkw : pySplit (pyLower q)
      case nil => simp
      case cons k ks =>
        simp only [List.isEmpty_cons, Bool.not_false, if_true, List.headD_cons]
        cases hconds : ((k :: ks).take 3).filter (fun kw => kw.length > 2)
        case nil =>
          simp only [List.isEmpty_nil, Bool.not_true, if_false, Bool.false_eq_true,
            List.isEmpty_eq_true, if_true]
          cases hapi : env.apiKeyword k <;> simp
        case cons c cs =>
          simp only [List.isEmpty_cons, Bool.not_false, if_true]
          cases hdb : env.directDb (c :: cs)
          case nil =>
            simp only [List.isEmpty_nil, if_true]
            cases hapi : env.apiKeyword k <;> simp
          case cons r rs => simp

/-! ## Behavioural lemmas for the cascade -/

/-- When neither Supabase nor a direct DB user is configured, the guard at
lines 316-317 returns the synthetic error record without touching cache or
strategies. -/
lemma skb_unavailable (env : KBEnv) (cache : Cache) (q : String)
    (h1 : env.supabaseAvailable = false) (h2 : env.dbUserSet = false) :
    searchKnowledgeBase env cache q =
      ([KBEntry.err "Knowledge base is not available"], cache) := by
  simp [searchKnowledgeBase, h1, h2]

/-- A truthy cache hit returns the cached value unchanged: no strategy
output appears and no write-back happens. -/
lemma skb_cache_hit (env : KBEnv) (cache : Cache) (q : String) (v : List KBEntry)
    (havail : env.supabaseAvailable = true ∨ env.dbUserSet = true)
    (hra : env.redisAvailable = true) (hgo : env.getOk = true)
    (hv : cacheLookup cache (kbCacheKey q) = some v) (hne : v ≠ []) :
    searchKnowledgeBase env cache q = (v, cache) := by
  have hguard : (!env.supabaseAvailable && !env.dbUserSet) = false := by
    rcases havail with h | h <;> simp [h]
  have hvne : v.isEmpty = false := by
    cases v with
    | nil => exact absurd rfl hne
    | cons a as => rfl
  simp [searchKnowledgeBase, hguard, hra, getFromCache, hgo, hv, hvne]

/-- On a cache miss (no entry, failed read, Redis off, or a falsy cached
value) the result is the strategy cascade, written back only when Redis is
available and the result non-empty. -/
lemma skb_cache_miss (env : KBEnv) (cache : Cache) (q : String)
    (havail : env.supabaseAvailable = true ∨ env.dbUserSet = true)
    (hmiss : ∀ v, getFromCache env cache (kbCacheKey q) = some v → v = []) :
    searchKnowledgeBase env cache q =
      ((cascadeSpec env q).map KBEntry.record,
       if env.redisAvailable && !(cascadeSpec env q).isEmpty then
         setInCache env cache (kbCacheKey q) ((cascadeSpec env q).map KBEntry.record)
       else cache) := by
  have hguard : (!env.supabaseAvailable && !env.dbUserSet) = false := by
    rcases havail with h | h <;> simp [h]
  have hres := kbStrategyResults_eq_cascadeSpec env q
  unfold searchKnowledgeBase
  rw [hguard]
  simp only [Bool.false_eq_true, if_false]
  have hpre : (if env.redisAvailable then getFromCache env cache (kbCacheKey q) else none) =
      none ∨
      (if env.redisAvailable then getFromCache env cache (kbCacheKey q) else none) =
      some [] := by
    cases hr : env.redisAvailable
    · simp
    · simp only [if_true]
      cases hg : getFromCache env cache (kbCacheKey q) with
      | none => exact Or.inl rfl
      | some v => exact Or.inr (by rw [hmiss v hg])
  have hemap : ∀ l : List KBRecord, (l.map KBEntry.record).isEmpty = l.isEmpty := by
    intro l; cases l <;> rfl
  rcases hpre with hpre | hpre <;>
    simp [hpre, hres, hemap, List.isEmpty_eq_true]

/-! ## Routing state machine (src/node.py, src/graph.py) -/

/-- A partner-organization record returned by `get_ecosystem_partners`. -/
abbrev Partner := Metadata

/-- The `context` dict assembled by `supervisor_node`: keys are present
only when the corresponding lookup returned something truthy. -/
structure Ctx where
  knowledge_base_results : Option (List KBEntry) := none
  ecosystem_partners : Option (List Partner) := none
deriving DecidableEq, Repr

/-- The human-feedback payload; `src/node.py` hard-codes
`{"approved": True}`. -/
structure Feedback where
  approved : Bool
deriving DecidableEq, Repr

/-- The conversation state as the node functions read it
(`state.get(key, default)`): message contents plus the routing keys. -/
structure GState where
  messages : List String := []
  context : Ctx := {}
  specialists_to_call : List String := []
  routing_reasons : List String := []
  specialist_responses : List (String × String) := []
  final_response : Option String := none
  error : Option String := none
  feedback : Option Feedback := none
deriving DecidableEq, Repr

/-- The `update` dict of a `Command`: `some` marks a key present in the
update.  No node ever updates `messages`. -/
structure StateUpdate where
  error : Option String := none
  final_response : Option String := none
  context : Option Ctx := none
  specialists_to_call : Option (List String) := none
  routing_reasons : Option (List String) := none
  feedback : Option Feedback := none
  specialist_responses : Option (List (String × String)) := none
deriving DecidableEq, Repr

/-- A langgraph `Command(goto=..., update=...)`. -/
structure Command where
  goto : String
  update : StateUpdate := {}
deriving DecidableEq, Repr

/-- Applying a `Command` update to the state: the state schema declares no
channel reducers, so each key present in the update replaces the old
value. -/
def applyUpdate (s : GState) (u : StateUpdate) : GState :=
  { messages := s.messages
    context := u.context.getD s.context
    specialists_to_call := u.specialists_to_call.getD s.specialists_to_call
    routing_reasons := u.routing_reasons.getD s.routing_reasons
    specialist_responses := u.specialist_responses.getD s.specialist_responses
    final_response := match u.final_response with
      | some v => some v
      | none => s.final_response
    error := match u.error with
      | some v => some v
      | none => s.error
    feedback := match u.feedback with
      | some v => some v
      | none => s.feedback }

/-- Python exceptions a node can raise. -/
inductive PyErr where
  | indexError
deriving DecidableEq, Repr

/-- Environment of the node functions: the knowledge-base tool, the
partner-directory tool, and the agent executor (`execute_agent` lives in
`agents.py`, outside src/; its response text is all the nodes consume, so
it is an oracle taking persona, tool names, messages and context). -/
structure NodeEnv where
  kb : String → List KBEntry
  partners : String → List Partner
  agent : String → List String → List String → Ctx → String

/-- Tool set bound to the supervisor persona (src/node.py lines 21-27). -/
def PENDO_TOOLS : List String :=
  ["search_knowledge_base", "search_clean_energy_web",
   "search_massachusetts_resources", "search_clean_energy_occupations",
   "search_training_programs"]

/-- Tool set of the career-development specialist (lines 55-65). -/
def LIV_TOOLS : List String :=
  ["search_knowledge_base", "search_clean_energy_web",
   "search_massachusetts_resources", "search_clean_energy_occupations",
   "analyze_resume", "get_career_paths", "find_training_resources",
   "match_jobs", "create_development_plan"]

/-- Tool set of the environmental-justice specialist (lines 29-35). -/
def JASMINE_TOOLS : List String :=
  ["search_knowledge_base", "search_clean_energy_web",
   "search_massachusetts_resources", "locate_ej_training_resources",
   "find_dei_programs"]

/-- Tool set of the veterans specialist (lines 37-44). -/
def MARCUS_TOOLS : List String :=
  ["search_knowledge_base", "search_clean_energy_web",
   "search_massachusetts_resources", "search_clean_energy_occupations",
   "translate_military_occupation", "find_veteran_benefits"]

/-- Tool set of the international-professionals specialist (lines 46-53). -/
def MIGUEL_TOOLS : List String :=
  ["search_knowledge_base", "search_clean_energy_web",
   "search_massachusetts_resources", "search_clean_energy_occupations",
   "evaluate_international_credential",
   "find_international_integration_resources"]

/-- Keywords routing to liv (src/node.py line 101). -/
def careerKeywords : List String := ["career", "resume", "skills"]

/-- Keywords routing to jasmine (line 105). -/
def ejKeywords : List String := ["environmental justice", "equity", "community"]

/-- Keywords routing to marcus (line 109). -/
def veteranKeywords : List String := ["veteran", "military", "service"]

/-- Keywords routing to miguel (line 113). -/
def internationalKeywords : List String := ["international", "visa", "credential"]

/-- Lines 95-115 of src/node.py: classify the supervisor's response text
against the keyword taxonomy, appending each matched specialist and its
routing reason in the fixed order liv, jasmine, marcus, miguel. -/
def classifySpecialists (response : String) : List String × List String :=
  let rl := pyLower response
  let acc : List String × List String := ([], [])
  let acc := if containsAnyKw rl careerKeywords then
      (acc.1 ++ ["liv"], acc.2 ++ ["Career development expertise needed"])
    else acc
  let acc := if containsAnyKw rl ejKeywords then
      (acc.1 ++ ["jasmine"], acc.2 ++ ["Environmental justice expertise needed"])
    else acc
  let acc := if containsAnyKw rl veteranKeywords then
      (acc.1 ++ ["marcus"], acc.2 ++ ["Veteran transition expertise needed"])
    else acc
  let acc := if containsAnyKw rl internationalKeywords then
      (acc.1 ++ ["miguel"], acc.2 ++ ["International professional expertise needed"])
    else acc
  acc

/-- The keyword taxonomy in the fixed priority order. -/
def taxonomy : List (String × List String) :=
  [("liv", careerKeywords), ("jasmine", ejKeywords),
   ("marcus", veteranKeywords), ("miguel", internationalKeywords)]

/-- `supervisor_node` (src/node.py lines 67-145): guard on empty messages,
knowledge-base and partner lookups on the latest message, supervisor agent
call, keyword classification, and the three-way routing decision. -/
def supervisorNode (env : NodeEnv) (s : GState) : Command :=
  if s.messages.isEmpty then
    { goto := "END", update := { error := some "No messages found" } }
  else
    let latest := s.messages.getLastD ""
    let kbResults := env.kb latest
    let ctx1 : Ctx :=
      if kbResults.isEmpty then {} else { knowledge_base_results := some kbResults }
    let partnersR := env.partners latest
    let ctx : Ctx :=
      if partnersR.isEmpty then ctx1 else { ctx1 with ecosystem_partners := some partnersR }
    let response := env.agent "pendo" PENDO_TOOLS [latest] ctx
    let cls := classifySpecialists response
    if cls.1.isEmpty && !kbResults.isEmpty then
      { goto := "END", update := { final_response := some response, context := some ctx } }
    else if !cls.1.isEmpty then
      { goto := "human_feedback",
        update := { specialists_to_call := some cls.1, routing_reasons := some cls.2,
                    context := some ctx } }
    else
      { goto := "END", update := { final_response := some response, context := some ctx } }

/-- `human_feedback_node` (src/node.py lines 147-175): feedback is
hard-coded approved; the approval path indexes `specialists[0]`, which
raises `IndexError` on an empty list. -/
def humanFeedbackNode (s : GState) : Except PyErr Command :=
  let specialists := s.specialists_to_call
  let feedback : Feedback := { approved := true }
  if feedback.approved then
    match specialists with
    | [] => .error .indexError
    | first :: _ => .ok { goto := first, update := { context := some s.context } }
  else
    .ok { goto := "supervisor", update := { feedback := some feedback } }

/-- `integrate_responses_node` (src/node.py lines 177-193). -/
def integrateResponsesNode (s : GState) : Command :=
  if s.specialist_responses.isEmpty then
    { goto := "supervisor",
      update := { error := some "No specialist responses to integrate" } }
  else
    let body := s.specialist_responses.foldl
      (fun acc p => acc ++ pyCapitalize p.1 ++ "\x27s Analysis:\n" ++ p.2 ++ "\n\n")
      "Integrated insights from specialists:\n\n"
    { goto := "supervisor", update := { final_response := some body } }

/-- `liv_node` (src/node.py lines 196-215). -/
def livNode (env : NodeEnv) (s : GState) : Command :=
  let response := env.agent "liv" LIV_TOOLS s.messages s.context
  { goto := "supervisor",
    update := { specialist_responses := some [("liv", response)] } }

/-- `jasmine_node` (src/node.py lines 217-236). -/
def jasmineNode (env : NodeEnv) (s : GState) : Command :=
  let response := env.agent "jasmine" JASMINE_TOOLS s.messages s.context
  { goto := "supervisor",
    update := { specialist_responses := some [("jasmine", response)] } }

/-- `marcus_node` (src/node.py lines 238-257). -/
def marcusNode (env : NodeEnv) (s : GState) : Command :=
  let response := env.agent "marcus" MARCUS_TOOLS s.messages s.context
  { goto := "supervisor",
    update := { specialist_responses := some [("marcus", response)] } }

/-- `miguel_node` (src/node.py lines 259-278). -/
def miguelNode (env : NodeEnv) (s : GState) : Command :=
  let response := env.agent "miguel" MIGUEL_TOOLS s.messages s.context
  { goto := "supervisor",
    update := { specialist_responses := some [("miguel", response)] } }

/-- The graph configuration built in `create_graph_with_config`
(src/graph.py lines 92-111): the only keys are a tool config
(max_concurrent_calls, timeout, retry_attempts) and a checkpointer.  No
field bounds the number of state-machine transitions. -/
structure GraphConfig where
  maxConcurrentCalls : Nat := 5
  timeout : Nat := 30
  retryAttempts : Nat := 2
  hasCheckpointer : Bool := false
deriving DecidableEq, Repr

/-- Dispatch one node of the graph built by `create_climate_graph`
(src/graph.py lines 39-90).  Control flow follows each node's
`Command.goto`; a raised exception propagates. -/
def runNode (env : NodeEnv) (node : String) (s : GState) : Except PyErr Command :=
  if node = "supervisor" then .ok (supervisorNode env s)
  else if node = "human_feedback" then humanFeedbackNode s
  else if node = "liv" then .ok (livNode env s)
  else if node = "jasmine" then .ok (jasmineNode env s)
  else if node = "marcus" then .ok (marcusNode env s)
  else if node = "miguel" then .ok (miguelNode env s)
  else if node = "integrate" then .ok (integrateResponsesNode s)
  else .ok { goto := node }

/-- One transition of the compiled graph: the terminal node END absorbs;
otherwise run the current node and follow its `goto`, applying its update.
The configuration is threaded through exactly as `create_climate_graph`
consumes it: it influences no transition and imposes no bound. -/
def stepGraph (_cfg : GraphConfig) (env : NodeEnv) :
    String × GState → Except PyErr (String × GState)
  | (node, s) =>
    if node = "END" then .ok (node, s)
    else
      match runNode env node s with
      | .error e => .error e
      | .ok cmd => .ok (cmd.goto, applyUpdate s cmd.update)

/-- `n` transitions of the compiled graph from an entry configuration. -/
def runGraph (cfg : GraphConfig) (env : NodeEnv) (init : String × GState) :
    Nat → Except PyErr (String × GState)
  | 0 => .ok init
  | n + 1 =>
    match runGraph cfg env init n with
    | .error e => .error e
    | .ok c => stepGraph cfg env c

/-! ## Claim theorems: routing (C4, C6, C9, C10) -/

/-- Claim C4: for every fixed supervisor response text, the dispatched
specialists are a pure function of the keyword taxonomy
(career/resume/skills selects liv; environmental justice/equity/community
selects jasmine; veteran/military/service selects marcus;
international/visa/credential selects miguel), and the resulting list is
exactly the taxonomy filtered in the fixed priority order liv, jasmine,
marcus, miguel — hence a sublist of that priority order, independent of
where the keywords occur in the text. -/
theorem c4_routing_deterministic_priority (r : String) :
    (classifySpecialists r).1 =
      (taxonomy.filter (fun p => containsAnyKw (pyLower r) p.2)).map Prod.fst ∧
    List.Sublist (classifySpecialists r).1 ["liv", "jasmine", "marcus", "miguel"] := by
  cases h1 : containsAnyKw (pyLower r) careerKeywords <;>
  cases h2 : containsAnyKw (pyLower r) ejKeywords <;>
  cases h3 : containsAnyKw (pyLower r) veteranKeywords <;>
  cases h4 : containsAnyKw (pyLower r) internationalKeywords <;>
  refine ⟨?_, ?_⟩ <;>
  simp [classifySpecialists, taxonomy, h1, h2, h3, h4]

/-- Claim C6: when the integration node runs with an empty
specialist-result map it does not terminate the turn: it routes back to the
supervisor with the error flag set in the update and no final response
(the update's `final_response` field is absent). -/
theorem c6_integrate_empty_returns_to_supervisor (s : GState)
    (h : s.specialist_responses = []) :
    integrateResponsesNode s =
      { goto := "supervisor",
        update := { error := some "No specialist responses to integrate" } } := by
  simp [integrateResponsesNode, h]

/-- Witness for C6 at the empty state. -/
theorem c6_integrate_empty_witness :
    ({} : GState).specialist_responses = [] ∧
    integrateResponsesNode {} =
      { goto := "supervisor",
        update := { error := some "No specialist responses to integrate" } } :=
  ⟨rfl, c6_integrate_empty_returns_to_supervisor {} rfl⟩

/-- Claim C9 (implicit): `human_feedback_node` is partial — the approval
path (taken unconditionally, feedback being hard-coded approved) indexes
`specialists[0]`, so every state whose `specialists_to_call` list is empty
or absent makes it raise `IndexError` instead of returning a `Command`. -/
theorem c9_human_feedback_empty_specialists_raises (s : GState)
    (h : s.specialists_to_call = []) :
    humanFeedbackNode s = .error PyErr.indexError := by
  simp [humanFeedbackNode, h]

/-- Witness for C9 at the empty state. -/
theorem c9_human_feedback_witness :
    ({} : GState).specialists_to_call = [] ∧
    humanFeedbackNode {} = .error PyErr.indexError :=
  ⟨rfl, c9_human_feedback_empty_specialists_raises {} rfl⟩

/-- Claim C10 (implicit): for every state with an empty message list,
`supervisor_node` returns the terminal command goto END carrying the error
text "No messages found"; the right-hand side is a constant — it holds for
every environment, so no knowledge-base lookup, partner lookup or agent
call influences it, and its update carries no final response. -/
theorem c10_supervisor_empty_messages (env : NodeEnv) (s : GState)
    (h : s.messages = []) :
    supervisorNode env s =
      { goto := "END", update := { error := some "No messages found" } } := by
  simp [supervisorNode, h]

/-- Witness for C10 at the empty state and a concrete environment. -/
theorem c10_supervisor_empty_messages_witness :
    ({} : GState).messages = [] ∧
    supervisorNode
      { kb := fun _ => [], partners := fun _ => [],
        agent := fun _ _ _ _ => "hi" } {} =
      { goto := "END", update := { error := some "No messages found" } } :=
  ⟨rfl, c10_supervisor_empty_messages
    { kb := fun _ => [], partners := fun _ => [],
      agent := fun _ _ _ _ => "hi" } {} rfl⟩

/-! ## Claim theorems: the supervisor/specialist loop (C5, C7)

A constant-response agent whose supervisor answer matches the veteran
keywords drives the graph around the cycle
supervisor → human_feedback → marcus → supervisor forever: nothing in
`create_climate_graph` or its configuration bounds the transition count,
and the specialist round never reaches the integration node. -/

/-- An environment whose knowledge-base and partner lookups return nothing
and whose agent always answers `resp`. -/
def constEnv (resp : String) : NodeEnv :=
  { kb := fun _ => []
    partners := fun _ => []
    agent := fun _ _ _ _ => resp }

/-- Entry state for the cycle runs: one user message. -/
def cycleInit : GState := { messages := ["hello"] }

/-- Invariant of the cycle: the message list never changes, the
specialist-result map holds at most marcus's entry, and control sits at
supervisor, marcus, or human_feedback with the matched specialists
pending. -/
abbrev CycleInv (resp : String) (rest : List String) (c : String) (s : GState) : Prop :=
  s.messages = ["hello"] ∧
  (s.specialist_responses = [] ∨
    s.specialist_responses = [("marcus", resp)]) ∧
  (c = "supervisor" ∨ c = "marcus" ∨
    (c = "human_feedback" ∧ s.specialists_to_call = "marcus" :: rest))

lemma cycle_step (resp : String) (rest reasons : List String)
    (hcls : classifySpecialists resp = ("marcus" :: rest, reasons))
    (cfg : GraphConfig) (c : String) (s : GState)
    (h : CycleInv resp rest c s) :
    ∃ c2 s2, stepGraph cfg (constEnv resp) (c, s) = .ok (c2, s2) ∧
      CycleInv resp rest c2 s2 := by
  obtain ⟨hm, hsr, hc⟩ := h
  rcases hc with hc | hc | ⟨hc, hstc⟩
  · subst hc
    have hcmd : supervisorNode (constEnv resp) s =
        { goto := "human_feedback",
          update := { specialists_to_call := some ("marcus" :: rest),
                      routing_reasons := some reasons,
                      context := some ({} : Ctx) } } := by
      simp [supervisorNode, hm, constEnv, hcls]
    refine ⟨"human_feedback",
      applyUpdate s { specialists_to_call := some ("marcus" :: rest),
                      routing_reasons := some reasons,
                      context := some ({} : Ctx) }, ?_, ?_, ?_, ?_⟩
    · simp [stepGraph, runNode, hcmd]
    · simpa [applyUpdate] using hm
    · simpa [applyUpdate] using hsr
    · exact Or.inr (Or.inr ⟨rfl, by simp [applyUpdate]⟩)
  · subst hc
    have hcmd : marcusNode (constEnv resp) s =
        { goto := "supervisor",
          update := { specialist_responses := some [("marcus", resp)] } } := by
      simp [marcusNode, constEnv]
    refine ⟨"supervisor",
      applyUpdate s { specialist_responses := some [("marcus", resp)] },
      ?_, ?_, ?_, ?_⟩
    · simp [stepGraph, runNode, hcmd]
    · simpa [applyUpdate] using hm
    · exact Or.inr (by simp [applyUpdate])
    · exact Or.inl rfl
  · subst hc
    have hcmd : humanFeedbackNode s =
        .ok { goto := "marcus", update := { context := some s.context } } := by
      simp [humanFeedbackNode, hstc]
    refine ⟨"marcus", applyUpdate s { context := some s.context },
      ?_, ?_, ?_, ?_⟩
    · simp [stepGraph, runNode, hcmd]
    · simpa [applyUpdate] using hm
    · simpa [applyUpdate] using hsr
    · exact Or.inr (Or.inl rfl)

lemma cycle_run (resp : String) (rest reasons : List String)
    (hcls : classifySpecialists resp = ("marcus" :: rest, reasons))
    (cfg : GraphConfig) :
    ∀ n, ∃ c s,
      runGraph cfg (constEnv resp) ("supervisor", cycleInit) n = .ok (c, s) ∧
      CycleInv resp rest c s := by
  intro n
  induction n with
  | zero =>
    exact ⟨"supervisor", cycleInit, rfl, rfl, Or.inl rfl, Or.inl rfl⟩
  | succ n ih =>
    obtain ⟨c, s, hrun, hinv⟩ := ih
    obtain ⟨c2, s2, hstep, hinv2⟩ := cycle_step resp rest reasons hcls cfg c s hinv
    exact ⟨c2, s2, by simp [runGraph, hrun, hstep], hinv2⟩

/-- Claim C7 fails on the code: `create_climate_graph` and
`create_graph_with_config` configure no maximum transition count (the
config carries only max_concurrent_calls, timeout, retry_attempts and a
checkpointer), so for EVERY configuration, a supervisor whose response
matches the veteran keywords cycles
supervisor → human_feedback → marcus → supervisor forever: after any
number of transitions the graph is still running and never in the terminal
END state — there is no forced terminal outcome after a bounded count. -/
theorem c7_no_transition_budget_cycles_forever (cfg : GraphConfig) (n : Nat) :
    ∃ c s,
      runGraph cfg (constEnv "I can help a veteran")
        ("supervisor", cycleInit) n = .ok (c, s) ∧ c ≠ "END" := by
  obtain ⟨c, s, hrun, hinv⟩ :=
    cycle_run "I can help a veteran" []
      ["Veteran transition expertise needed"] (by decide) cfg n
  refine ⟨c, s, hrun, ?_⟩
  rcases hinv.2.2 with h | h | ⟨h, _⟩ <;> subst h <;> decide

/-- Claim C5 fails on the code: with two matched specialists
(response matching the veteran and international keywords, so
`specialists_to_call = ["marcus", "miguel"]`), the approved round runs
only `specialists[0]`; every specialist node gotoes "supervisor", so after
any number of transitions the integration node has never run, the turn has
not ended, and miguel has never recorded a result. -/
theorem c5_second_specialist_and_integration_never_run (cfg : GraphConfig)
    (n : Nat) :
    ∃ c s,
      runGraph cfg (constEnv "a veteran on a visa")
        ("supervisor", cycleInit) n = .ok (c, s) ∧
      c ≠ "integrate" ∧ c ≠ "END" ∧
      List.lookup "miguel" s.specialist_responses = none := by
  obtain ⟨c, s, hrun, hinv⟩ :=
    cycle_run "a veteran on a visa" ["miguel"]
      ["Veteran transition expertise needed",
       "International professional expertise needed"] (by decide) cfg n
  refine ⟨c, s, hrun, ?_, ?_, ?_⟩
  · rcases hinv.2.2 with h | h | ⟨h, _⟩ <;> subst h <;> decide
  · rcases hinv.2.2 with h | h | ⟨h, _⟩ <;> subst h <;> decide
  · rcases hinv.2.1 with h | h <;> rw [h] <;> decide

/-! ## Claim theorems: the resolution cascade (C1, C2, C3, C8) -/

/-- When every strategy fails, the cascade yields no records. -/
lemma cascadeSpec_all_fail (env : KBEnv) (q : String)
    (hvs : env.hasVectorStore = false ∨ ∃ e, env.vectorSearch q = .error e)
    (hrpc : ∃ e, env.rpcMatchDocuments q = .error e)
    (hdb : ∀ conds, env.directDb conds = [])
    (hapi : ∀ k, ∃ e, env.apiKeyword k = .error e) :
    cascadeSpec env q = [] := by
  obtain ⟨e3, h3⟩ := hrpc
  have hs3 : strat3 env q = .error e3 := by simp [strat3, h3]
  have hs2 : strat2 env q = .ok [] ∨ ∃ e, strat2 env q = .error e := by
    cases hv : env.hasVectorStore
    · exact Or.inl (by simp [strat2, hv])
    · rcases hvs with hvs | ⟨e2, h2⟩
      · exact absurd hv (by simp [hvs])
      · exact Or.inr ⟨e2, by simp [strat2, hv, h2]⟩
  have hs4 : strat4 env q = [] := by
    unfold strat4
    simp [hdb]
  have hs5 : strat5 env q = .ok [] ∨ ∃ e, strat5 env q = .error e := by
    unfold strat5
    cases hkw : pySplit (pyLower q) with
    | nil => exact Or.inl rfl
    | cons k ks =>
      obtain ⟨e5, h5⟩ := hapi k
      exact Or.inr ⟨e5, by simp [h5]⟩
  unfold cascadeSpec
  rcases hs5 with h5 | ⟨e5, h5⟩ <;>
  rcases hs2 with h2 | ⟨e2, h2⟩ <;>
    simp [h2, hs3, hs4, h5]

/-- Claim C1: the knowledge-resolution entry point never raises (the
embedding returns a value for every environment, query and cache — every
backend exception is caught), and on total failure of every strategy it
returns either the empty sequence or the single synthetic record carrying
the failure reason — never a propagated error. -/
theorem c1_resolve_never_raises_total_failure (env : KBEnv) (cache : Cache)
    (q : String)
    (hmiss : ∀ v, getFromCache env cache (kbCacheKey q) = some v → v = [])
    (hvs : env.hasVectorStore = false ∨ ∃ e, env.vectorSearch q = .error e)
    (hrpc : ∃ e, env.rpcMatchDocuments q = .error e)
    (hdb : ∀ conds, env.directDb conds = [])
    (hapi : ∀ k, ∃ e, env.apiKeyword k = .error e) :
    (searchKnowledgeBase env cache q).1 = [] ∨
    (searchKnowledgeBase env cache q).1 =
      [KBEntry.err "Knowledge base is not available"] := by
  have hcs := cascadeSpec_all_fail env q hvs hrpc hdb hapi
  cases ha : env.supabaseAvailable
  · cases hd : env.dbUserSet
    · exact Or.inr (by rw [skb_unavailable env cache q ha hd])
    · left
      rw [skb_cache_miss env cache q (Or.inr hd) hmiss, hcs]
      rfl
  · left
    rw [skb_cache_miss env cache q (Or.inl ha) hmiss, hcs]
    rfl

/-- An environment in which every strategy fails: the vector search, the
RPC and the API keyword call raise, and the direct DB query finds no
rows. -/
def envFail : KBEnv :=
  { supabaseAvailable := true
    dbUserSet := false
    redisAvailable := true
    getOk := true
    setOk := true
    hasVectorStore := true
    vectorSearch := fun _ => .error "vector store search failed"
    rpcMatchDocuments := fun _ => .error "match_documents function call failed"
    directDb := fun _ => []
    apiKeyword := fun _ => .error "keyword matching failed" }

/-- Witness for C1: on `envFail` with an empty cache, resolution of
"solar" completes with the empty result. -/
theorem c1_resolve_witness :
    (searchKnowledgeBase envFail [] "solar").1 = [] ∨
    (searchKnowledgeBase envFail [] "solar").1 =
      [KBEntry.err "Knowledge base is not available"] :=
  c1_resolve_never_raises_total_failure envFail [] "solar"
    (by simp [getFromCache, cacheLookup])
    (Or.inr ⟨_, rfl⟩) ⟨_, rfl⟩ (fun _ => rfl) (fun _ => ⟨_, rfl⟩)

/-- An environment refuting claim C2 as stated: no vector store, the RPC
SUCCEEDS but matches zero records, and the direct-connection fallback
would find a row — yet the code never attempts it, because the two keyword
fallbacks live inside the RPC's exception handler. -/
def envC2 : KBEnv :=
  { supabaseAvailable := true
    dbUserSet := true
    redisAvailable := false
    getOk := false
    setOk := false
    hasVectorStore := false
    vectorSearch := fun _ => .error "unused"
    rpcMatchDocuments := fun _ => .ok []
    directDb := fun _ => [{ content := some "solar row" }]
    apiKeyword := fun _ => .ok [{ content := some "solar row" }] }

/-- Counterexample to claim C2 as stated: every earlier non-cache strategy
produced zero records (vector store absent, RPC succeeded with zero
records), the direct-connection fallback would produce a record, yet
`search_knowledge_base` returns the empty result — the later strategy was
not attempted. -/
theorem c2_counterexample_rpc_zero_records :
    (searchKnowledgeBase envC2 [] "solar power").1 = [] ∧
    (envC2.directDb
        (((pySplit (pyLower "solar power")).take 3).filter
          (fun kw => kw.length > 2))).map recordOfDbItem ≠ [] := by
  exact ⟨rfl, by simp [envC2]⟩

/-- Claim C2 amended: under knowledge-base availability and a cache miss,
the result is exactly the ordered cascade — similarity search first,
short-circuiting on its first record; otherwise the RPC's successful
answer is final even when empty; the keyword fallbacks are attempted only
when the RPC raises, the API fallback only when the direct-connection
fallback yields zero records; a raising strategy contributes nothing. -/
theorem c2_amended_cascade_order (env : KBEnv) (cache : Cache) (q : String)
    (havail : env.supabaseAvailable = true ∨ env.dbUserSet = true)
    (hmiss : ∀ v, getFromCache env cache (kbCacheKey q) = some v → v = []) :
    (searchKnowledgeBase env cache q).1 =
      (cascadeSpec env q).map KBEntry.record := by
  rw [skb_cache_miss env cache q havail hmiss]

/-- A vector-store document used in concrete instances. -/
def solarDoc : VDoc := { page_content := "solar info", metadata := [] }

/-- An environment whose vector search succeeds with one document and
whose remaining strategies raise. -/
def envVec : KBEnv :=
  { supabaseAvailable := true
    dbUserSet := true
    redisAvailable := true
    getOk := true
    setOk := true
    hasVectorStore := true
    vectorSearch := fun _ => .ok [(solarDoc, 1)]
    rpcMatchDocuments := fun _ => .error "down"
    directDb := fun _ => []
    apiKeyword := fun _ => .error "down" }

/-- Witness for the amended C2 on `envVec` with an empty cache. -/
theorem c2_amended_witness :
    (searchKnowledgeBase envVec [] "solar").1 =
      (cascadeSpec envVec "solar").map KBEntry.record :=
  c2_amended_cascade_order envVec [] "solar" (Or.inl rfl)
    (by simp [getFromCache, cacheLookup])

/-- A cache holding the falsy value `[]` for the fingerprint of "wind". -/
def emptyValCache : Cache := [(kbCacheKey "wind", ([], 60))]

/-- Counterexample to claim C3 as stated: the fingerprint of "wind" has a
cached value (the empty list), yet resolve does not return it immediately
— the truthiness test treats it as a miss, the strategies run and produce
a different result, and a write-back changes the cache. -/
theorem c3_counterexample_falsy_cached_value :
    getFromCache envVec emptyValCache (kbCacheKey "wind") = some [] ∧
    (searchKnowledgeBase envVec emptyValCache "wind").1 ≠ [] ∧
    (searchKnowledgeBase envVec emptyValCache "wind").2 ≠ emptyValCache := by
  refine ⟨rfl, ?_, ?_⟩ <;> decide

/-- Claim C3 amended: for every query whose fingerprint holds a NON-EMPTY
cached value, when the knowledge base is available, Redis is available and
the cache read succeeds, resolve returns the cached result immediately:
the output is the cached value for every choice of strategy oracles (so no
strategy result can appear) and the cache is returned unchanged (no
write-back). -/
theorem c3_amended_cache_hit_short_circuits (env : KBEnv) (cache : Cache)
    (q : String) (v : List KBEntry)
    (havail : env.supabaseAvailable = true ∨ env.dbUserSet = true)
    (hra : env.redisAvailable = true) (hgo : env.getOk = true)
    (hv : cacheLookup cache (kbCacheKey q) = some v) (hne : v ≠ []) :
    searchKnowledgeBase env cache q = (v, cache) :=
  skb_cache_hit env cache q v havail hra hgo hv hne

/-- The cached value used in the C3 witness. -/
def cachedVal : List KBEntry := [KBEntry.record (recordOfVDoc solarDoc 1)]

/-- The cache used in the C3 witness. -/
def hitCache : Cache := [(kbCacheKey "wind", (cachedVal, 3600))]

/-- Witness for the amended C3: a non-empty cached value is returned
unchanged. -/
theorem c3_amended_witness :
    searchKnowledgeBase envVec hitCache "wind" = (cachedVal, hitCache) :=
  c3_amended_cache_hit_short_circuits envVec hitCache "wind" cachedVal
    (Or.inl rfl) rfl rfl rfl (by simp [cachedVal])

/-- `envVec` with Redis unavailable. -/
def envNoRedis : KBEnv :=
  { supabaseAvailable := true
    dbUserSet := true
    redisAvailable := false
    getOk := true
    setOk := true
    hasVectorStore := true
    vectorSearch := fun _ => .ok [(solarDoc, 1)]
    rpcMatchDocuments := fun _ => .error "down"
    directDb := fun _ => []
    apiKeyword := fun _ => .error "down" }

/-- Counterexample to claim C8 as stated: with Redis unavailable, the
first resolve call returns a non-empty result from strategy 2, yet
nothing is written back to the cache — so the second call cannot be served
from the cache. -/
theorem c8_counterexample_no_redis_no_write_back :
    (searchKnowledgeBase envNoRedis [] "solar").1 ≠ [] ∧
    (searchKnowledgeBase envNoRedis [] "solar").2 = [] := by
  refine ⟨?_, rfl⟩
  decide

/-- Claim C8 amended: when Redis is available and its read and write
operations succeed, a first resolve call that misses the cache and returns
a non-empty result (necessarily from strategies 2-5) writes that result
back under the 3600-second TTL before returning, and a second resolve call
with the identical request returns the identical result served from the
cache, leaving the cache unchanged, independently of which strategy
produced it. -/
theorem c8_amended_write_back_idempotent (env : KBEnv) (cache : Cache)
    (q : String) (r : List KBEntry) (c2 : Cache)
    (havail : env.supabaseAvailable = true ∨ env.dbUserSet = true)
    (hra : env.redisAvailable = true) (hgo : env.getOk = true)
    (hso : env.setOk = true)
    (hmiss : ∀ v, getFromCache env cache (kbCacheKey q) = some v → v = [])
    (h1 : searchKnowledgeBase env cache q = (r, c2)) (hne : r ≠ []) :
    List.lookup (kbCacheKey q) c2 = some (r, 3600) ∧
    searchKnowledgeBase env c2 q = (r, c2) := by
  rw [skb_cache_miss env cache q havail hmiss] at h1
  have hr : (cascadeSpec env q).map KBEntry.record = r := congrArg Prod.fst h1
  have hcond : (cascadeSpec env q).isEmpty = false := by
    cases hcs : cascadeSpec env q
    · exact absurd (by rw [← hr, hcs]; rfl) hne
    · rfl
  have hc : setInCache env cache (kbCacheKey q)
      ((cascadeSpec env q).map KBEntry.record) = c2 := by
    have := congrArg Prod.snd h1
    simpa [hra, hcond] using this
  rw [setInCache, hra, hso] at hc
  simp only [Bool.and_self, if_true] at hc
  rw [hr] at hc
  constructor
  · rw [← hc]
    simp [List.lookup]
  · exact skb_cache_hit env c2 q r havail hra hgo
      (by rw [← hc]; simp [cacheLookup, List.lookup]) hne

/-- The first-call result in the C8 witness. -/
def c8Result : List KBEntry := [KBEntry.record (recordOfVDoc solarDoc 1)]

/-- The cache after the first call in the C8 witness. -/
def c8Cache : Cache := [(kbCacheKey "solar", (c8Result, 3600))]

/-- Witness for the amended C8: a concrete first call writes back, and the
second call is served from the cache with the identical result. -/
theorem c8_amended_witness :
    List.lookup (kbCacheKey "solar") c8Cache = some (c8Result, 3600) ∧
    searchKnowledgeBase envVec c8Cache "solar" = (c8Result, c8Cache) :=
  c8_amended_write_back_idempotent envVec [] "solar" c8Result c8Cache
    (Or.inl rfl) rfl rfl rfl
    (by simp [getFromCache, cacheLookup])
    (by decide) (by simp [c8Result])

end Climate
